import Mathlib

/-!
Verification development for the msm7k gralloc buffer allocator
(libgralloc-qsd8k/gralloc.cpp together with libgralloc/gralloc_priv.h).

The C sources are shallowly embedded: machine integers become Nat/Int with
explicit reductions where C performs conversions, the static module state
(pool allocators, master descriptors, framebuffer slot bitmask) becomes an
explicit state record threaded through every operation, and the external
environment (device nodes, mmap, ioctl, ashmem) is an oracle record of
outcomes.  File descriptors are tracked through an explicit supply so that
descriptor leaks are observable; memory scrubbing (memset to zero) is
recorded in an event list.
-/

namespace Gralloc

/-! ### Basic constants (errno values, page size, pixel formats) -/

def PAGE_SIZE : Nat := 4096

def EINVAL : Int := 22
def ENOMEM : Int := 12
def EBADF : Int := 9

/-- gralloc_priv.h roundUpToPageSize: (x + (PAGE_SIZE-1)) & ~(PAGE_SIZE-1).
For the power-of-two page size the bit mask equals subtracting the low
remainder, which is how it is rendered on Nat. -/
def roundUpToPageSize (x : Nat) : Nat :=
  (x + (PAGE_SIZE - 1)) - (x + (PAGE_SIZE - 1)) % PAGE_SIZE

def HAL_PIXEL_FORMAT_RGBA_8888 : Int := 1
def HAL_PIXEL_FORMAT_RGB_565 : Int := 4
def HAL_PIXEL_FORMAT_BGRA_8888 : Int := 5
def HAL_PIXEL_FORMAT_RGBA_5551 : Int := 6
def HAL_PIXEL_FORMAT_RGBA_4444 : Int := 7

/-- C conversion of an int expression to size_t (32-bit): reduce mod 2^32.
Lean Int `%` is emod, whose result is non-negative for a positive modulus,
matching the C conversion rule. -/
def toSizeT (i : Int) : Nat := (i % (2 ^ 32 : Int)).toNat

/-! ### Usage flags and handle flags

The recognized gralloc usage bits are embedded as a record of booleans:
GRALLOC_USAGE_HW_TEXTURE, GRALLOC_USAGE_HW_RENDER, GRALLOC_USAGE_HW_2D,
GRALLOC_USAGE_HW_FB.  The private handle flag word holds
PRIV_FLAGS_FRAMEBUFFER and PRIV_FLAGS_USES_PMEM. -/

structure Usage where
  hwRender : Bool
  hw2d : Bool
  hwTexture : Bool
  hwFb : Bool
deriving DecidableEq, Repr

structure Flags where
  framebuffer : Bool
  usesPmem : Bool
deriving DecidableEq, Repr

/-- The buffer-type constants used by gralloc.cpp (BUFFER_TYPE_FB,
BUFFER_TYPE_GPU0, BUFFER_TYPE_GPU1, BUFFER_TYPE_PMEM).  Their numeric
values are never used arithmetically, only compared. -/
inductive BufferType where
  | FB
  | GPU0
  | GPU1
  | PMEM
deriving DecidableEq, Repr

/-! ### The private handle (gralloc_priv.h, struct private_handle_t) -/

/-- sizeof(native_handle): three C ints (version, numFds, numInts). -/
def sizeof_native_handle : Nat := 12

def sNumInts : Nat := 8
def sNumFds : Nat := 1
def sMagic : Int := 0x3141592

/-- private_handle_t.  The native_handle header fields (version, numFds,
numInts) are inlined; bufferType and phys are the extra backing-store
fields the qsd8k allocator stores in its handle. -/
structure private_handle_t where
  version : Nat
  numFds : Nat
  numInts : Nat
  fd : Int
  magic : Int
  flags : Flags
  size : Nat
  offset : Int
  base : Int
  lockState : Nat
  writeOwner : Int
  pid : Nat
  bufferType : BufferType
  phys : Int
deriving DecidableEq, Repr

/-- The private_handle_t constructor: sets the magic signature and the
fixed shape descriptor, zeroes offset/base/lockState/writeOwner. -/
def mkHandle (fd : Int) (size : Nat) (flags : Flags) (bufferType : BufferType)
    (pid : Nat) : private_handle_t :=
  { version := sizeof_native_handle
    numFds := sNumFds
    numInts := sNumInts
    fd := fd
    magic := sMagic
    flags := flags
    size := size
    offset := 0
    base := 0
    lockState := 0
    writeOwner := 0
    pid := pid
    bufferType := bufferType
    phys := 0 }

/-- The private_handle_t destructor: clears the magic signature. -/
def destroyHandle (h : private_handle_t) : private_handle_t :=
  { h with magic := 0 }

/-- private_handle_t::validate on a single (non-null) candidate record. -/
def validateH (h : private_handle_t) : Int :=
  if h.version ≠ sizeof_native_handle ∨ h.numInts ≠ sNumInts ∨ h.numFds ≠ sNumFds then
    -EINVAL
  else if h.magic ≠ sMagic then
    -EINVAL
  else
    0

/-- private_handle_t::validate including the null-pointer case. -/
def validate : Option private_handle_t → Int
  | none => -EINVAL
  | some h => validateH h

/-! ### The best-fit region allocator

Modelled from the spec: the SimpleBestFitAllocator used by gralloc.cpp
lives in allocator.h/allocator.cpp, which are not part of this source
tree; section 4.1 of the specification describes it.  Free extents are a
list of (offset, length) pairs ordered by offset; allocate chooses the
smallest free extent that fits (lowest offset on ties), splits it, and
records the allocated extent; deallocate looks up the recorded length,
re-inserts the extent and coalesces adjacent free extents; sizes are
rounded up to the page size. -/

abbrev Extent := Nat × Nat

def insertFree : List Extent → Extent → List Extent
  | [], e => [e]
  | a :: rest, e => if e.1 ≤ a.1 then e :: a :: rest else a :: insertFree rest e

/-- Merge a new head extent into an already coalesced list whose first
element starts after it. -/
def coalesceStep (a : Extent) : List Extent → List Extent
  | [] => [a]
  | b :: t => if a.1 + a.2 = b.1 then (a.1, a.2 + b.2) :: t else a :: b :: t

def coalesce : List Extent → List Extent
  | [] => []
  | a :: rest => coalesceStep a (coalesce rest)

def removeSplit : List Extent → Nat → Nat → List Extent
  | [], _, _ => []
  | a :: rest, o, sz =>
    if a.1 = o then (if a.2 = sz then rest else (o + sz, a.2 - sz) :: rest)
    else a :: removeSplit rest o sz

/-- Compare the head extent against the best candidate of the tail:
prefer it when it fits and is strictly smaller, or equally small with a
lower offset. -/
def bestFitChoose (sz : Nat) (a : Extent) : Option Extent → Option Extent
  | none => if sz ≤ a.2 then some a else none
  | some b =>
    if sz ≤ a.2 ∧ (a.2 < b.2 ∨ (a.2 = b.2 ∧ a.1 < b.1)) then some a else some b

/-- Best-fit search: smallest free extent with length at least sz,
lowest offset used to break ties. -/
def bestFitFind : List Extent → Nat → Option Extent
  | [], _ => none
  | a :: rest, sz => bestFitChoose sz a (bestFitFind rest sz)

def lookupLen : List Extent → Nat → Option Nat
  | [], _ => none
  | a :: rest, o => if a.1 = o then some a.2 else lookupLen rest o

def removeKey : List Extent → Nat → List Extent
  | [], _ => []
  | a :: rest, o => if a.1 = o then rest else a :: removeKey rest o

structure BestFit where
  heapSize : Nat
  free : List Extent
  allocated : List Extent
deriving DecidableEq, Repr

/-- Modelled from the spec: construction takes the pool's total size as
its addressable extent, initially one big free extent. -/
def SimpleBestFitAllocator (sz : Nat) : BestFit :=
  { heapSize := sz, free := [(0, sz)], allocated := [] }

structure AllocRes where
  offset : Int
  pool : BestFit
deriving DecidableEq, Repr

/-- Apply the result of the best-fit search: split the chosen extent and
record the allocation, or report OutOfSpace. -/
def allocApply (p : BestFit) (sz : Nat) : Option Extent → AllocRes
  | none => ⟨-ENOMEM, p⟩
  | some e =>
    ⟨(e.1 : Int),
     { p with free := removeSplit p.free e.1 sz, allocated := (e.1, sz) :: p.allocated }⟩

/-- Modelled from the spec: allocate(size) -> offset or OutOfSpace
(a negative value, checked by the caller with offset < 0). -/
def BestFit.allocate (p : BestFit) (size : Nat) : AllocRes :=
  let sz := roundUpToPageSize size
  allocApply p sz (bestFitFind p.free sz)

/-- Apply the result of the allocated-extent lookup: re-insert the freed
extent and coalesce, or reject the unknown offset. -/
def deallocApply (p : BestFit) (o : Nat) : Option Nat → BestFit
  | none => p
  | some len =>
    { p with
      free := coalesce (insertFree p.free (o, len))
      allocated := removeKey p.allocated o }

/-- Modelled from the spec: deallocate(offset) frees the extent recorded
at allocation time and coalesces; an offset that is not currently
allocated is rejected without corrupting the free-list state. -/
def BestFit.deallocate (p : BestFit) (offset : Int) : BestFit :=
  if offset < 0 then p
  else deallocApply p offset.toNat (lookupLen p.allocated offset.toNat)

/-- Well-formedness of a pool free list: extents are ordered by offset,
disjoint and fully coalesced (each extent ends strictly before the next
one starts). -/
def BestFit.Wf (p : BestFit) : Prop :=
  List.Pairwise (fun a b : Extent => a.1 + a.2 < b.1) p.free

instance (p : BestFit) : Decidable p.Wf := by
  unfold BestFit.Wf; infer_instance

/-! ### Module and system state -/

/-- The mapped framebuffer surface record (private_module_t::framebuffer,
reduced to the fields gralloc.cpp reads: base and phys). -/
structure FbInfo where
  base : Int
  phys : Int
deriving DecidableEq, Repr

/-- private_module_t: the static module state of gralloc.cpp.
lineLength and yres are finfo.line_length and info.yres, filled in by
mapFrameBufferLocked. -/
structure ModuleState where
  framebuffer : Option FbInfo
  numBuffers : Nat
  bufferMask : Nat
  lineLength : Nat
  yres : Nat
  pmem_master : Int
  pmem_master_base : Int
  gpu_master : Int
  gpu_master_base : Int
  master_phys : Int
deriving DecidableEq, Repr

/-- The whole mutable state: module state, the two static pool
allocators (sAllocator and sGPUAllocator of gralloc.cpp), a fresh file
descriptor supply with the set of currently open descriptors, and a log
of zeroed (base, size) memory ranges recording memset calls. -/
structure SysState where
  m : ModuleState
  sAlloc : BestFit
  sGPUAlloc : BestFit
  nextFd : Nat
  openFds : List Nat
  zeroed : List (Int × Nat)
deriving DecidableEq, Repr

/-- The environment oracle: which external operations succeed during a
call, and the values they produce. -/
structure Env where
  ashmemOk : Bool
  pmemDevOk : Bool
  gpu0DevOk : Bool
  gpu1DevOk : Bool
  mmapOk : Bool
  connectOk : Bool
  mapIoctlOk : Bool
  getPhysOk : Bool
  physBase : Int
  pmemMmapBase : Int
  gpuMmapBase : Int
  fbBase : Int
  fbPhys : Int
  fbLineLength : Nat
  fbYres : Nat
  fbNumBuffers : Nat
  fbMapOk : Bool
  errno : Nat
  pid : Nat
deriving DecidableEq, Repr

structure FdOut where
  fd : Nat
  st : SysState
deriving DecidableEq, Repr

/-- Successful open/dup: hand out the next descriptor. -/
def openFd (st : SysState) : FdOut :=
  ⟨st.nextFd, { st with openFds := st.nextFd :: st.openFds, nextFd := st.nextFd + 1 }⟩

/-- close(fd): closing a negative descriptor is a harmless failure. -/
def closeFd (st : SysState) (fd : Int) : SysState :=
  if fd < 0 then st else { st with openFds := st.openFds.erase fd.toNat }

/-- Which device-open oracle governs the pmem device of a buffer type. -/
def secDevOk (env : Env) : BufferType → Bool
  | .GPU0 => env.gpu0DevOk
  | .GPU1 => env.gpu1DevOk
  | .PMEM => env.pmemDevOk
  | .FB => false

/-- The master descriptor gralloc.cpp reads for a buffer type:
pmem_master for BUFFER_TYPE_PMEM, gpu_master for everything else. -/
def masterOf (st : SysState) (bt : BufferType) : Int :=
  if bt = BufferType.PMEM then st.m.pmem_master else st.m.gpu_master

/-- The pool allocator gralloc.cpp uses for a buffer type. -/
def poolOf (st : SysState) (bt : BufferType) : BestFit :=
  if bt = BufferType.PMEM then st.sAlloc else st.sGPUAlloc

structure InitOut where
  err : Int
  st : SysState
deriving DecidableEq, Repr

/-- init_pmem_area (gralloc.cpp lines 181-235): open the master device
for the pool kind, mmap the whole heap, record master fd and base in the
module state; GPU pools additionally query PMEM_GET_PHYS (whose raw
ioctl return value, -1 on failure, is what the function returns). -/
def init_pmem_area (env : Env) (st : SysState) (type : BufferType) : InitOut :=
  if secDevOk env type then
    let o := openFd st
    let master_fd : Int := (o.fd : Int)
    let st := o.st
    if env.mmapOk then
      let base : Int := if type = BufferType.PMEM then env.pmemMmapBase else env.gpuMmapBase
      if type = BufferType.PMEM then
        ⟨0, { st with m := { st.m with pmem_master := master_fd, pmem_master_base := base } }⟩
      else
        let st := { st with m := { st.m with gpu_master := master_fd, gpu_master_base := base } }
        if env.getPhysOk then
          ⟨0, { st with m := { st.m with master_phys := env.physBase } }⟩
        else
          ⟨-1, st⟩
    else
      -- mmap failed: err = -errno, close the master fd, mark the pool unopened
      let st := closeFd st master_fd
      if type = BufferType.PMEM then
        ⟨-(env.errno : Int),
         { st with m := { st.m with pmem_master := -1, pmem_master_base := 0 } }⟩
      else
        -- the subsequent PMEM_GET_PHYS ioctl on fd -1 overwrites err with -1
        ⟨-1, { st with m := { st.m with gpu_master := -1, gpu_master_base := 0 } }⟩
  else
    ⟨-(env.errno : Int), st⟩

structure AshOut where
  err : Int
  fd : Int
  st : SysState
deriving DecidableEq, Repr

/-- ashmem_create_region: create an anonymous shared memory region. -/
def ashmemOpen (env : Env) (st : SysState) : AshOut :=
  if env.ashmemOk then
    let o := openFd st
    ⟨0, (o.fd : Int), o.st⟩
  else
    ⟨-(env.errno : Int), -1, st⟩

structure AllocOut where
  ret : Int
  handle : Option private_handle_t
  st : SysState
deriving DecidableEq, Repr

/-- The common tail of gralloc_alloc_buffer (lines 357-371): when err is
zero construct the private handle from the collected fields, otherwise
return the error with no handle. -/
def finishAlloc (err : Int) (fd : Int) (size : Nat) (flags : Flags)
    (bufferType : BufferType) (offset : Int) (base : Int) (lockState : Nat)
    (pid : Nat) (st : SysState) : AllocOut :=
  if err = 0 then
    ⟨0,
     some { mkHandle fd size flags bufferType pid with
            offset := offset
            base := base + offset
            lockState := lockState
            phys := if bufferType = BufferType.GPU1 then st.m.master_phys + offset else 0 },
     st⟩
  else
    ⟨err, none, st⟩

/-- The try_ashmem label of gralloc_alloc_buffer (lines 269-274):
create an anonymous shared-memory region; fd, offset, base and lockState
stay at their initial values. -/
def tryAshmemPath (env : Env) (st : SysState) (size : Nat) (flags : Flags)
    (bufferType : BufferType) : AllocOut :=
  let a := ashmemOpen env st
  finishAlloc a.err a.fd size flags bufferType 0 0 0 env.pid a.st

/-- Lines 319-344 of gralloc_alloc_buffer: after the extent is reserved,
open a secondary descriptor on the pool device, PMEM_CONNECT it to the
master, PMEM_MAP the sub-range; on any failure close the descriptor and
release the extent before surfacing the error. -/
def pmemSecondary (env : Env) (st : SysState) (size : Nat) (bufferType : BufferType)
    (base offset : Int) : AllocOut :=
  let fr : AshOut :=
    if secDevOk env bufferType then
      let o := openFd st
      ⟨0, (o.fd : Int), o.st⟩
    else
      ⟨0, -1, st⟩
  let fd := fr.fd
  let st := fr.st
  -- PMEM_CONNECT; on failure err = -errno (EBADF when fd is invalid)
  let errC : Int :=
    if fd < 0 then -EBADF
    else if env.connectOk then 0 else -(env.errno : Int)
  -- PMEM_MAP returns its raw ioctl result (-1 on failure)
  let err : Int := if errC < 0 then errC else if env.mapIoctlOk then 0 else -1
  if err < 0 then
    let st := closeFd st fd
    let st := if bufferType = BufferType.PMEM then
                { st with sAlloc := st.sAlloc.deallocate offset }
              else
                { st with sGPUAlloc := st.sGPUAlloc.deallocate offset }
    finishAlloc err (-1) size ⟨false, true⟩ bufferType offset base (1 <<< 30)
      env.pid st
  else
    finishAlloc 0 fd size ⟨false, true⟩ bufferType offset base (1 <<< 30) env.pid st

/-- Lines 302-344: the master descriptor is open; reserve an extent in
the pool of the buffer type (-ENOMEM when the pool is out of space),
then map it through a secondary descriptor. -/
def pmemWithMaster (env : Env) (st : SysState) (size : Nat)
    (bufferType : BufferType) : AllocOut :=
  let base : Int :=
    if bufferType = BufferType.PMEM then st.m.pmem_master_base else st.m.gpu_master_base
  let ar := if bufferType = BufferType.PMEM then st.sAlloc.allocate size
            else st.sGPUAlloc.allocate size
  let st := if bufferType = BufferType.PMEM then { st with sAlloc := ar.pool }
            else { st with sGPUAlloc := ar.pool }
  let offset := ar.offset
  if offset < 0 then
    finishAlloc (-ENOMEM) (-1) size ⟨false, true⟩ bufferType offset base (1 <<< 30)
      env.pid st
  else
    pmemSecondary env st size bufferType base offset

/-- The physical-pool branch of gralloc_alloc_buffer (lines 275-354):
lazily open the master, reserve an extent, open and connect a secondary
descriptor, map the sub-range; on a partial failure close the secondary
descriptor and release the extent; when the master could not be opened,
fall back to ashmem unless GRALLOC_USAGE_HW_2D demanded the pool.  The
handle flags on this path are PRIV_FLAGS_USES_PMEM (cleared again on the
fallback). -/
def pmemPath (env : Env) (st : SysState) (size : Nat) (bufferType : BufferType)
    (usage : Usage) : AllocOut :=
  let ini := if masterOf st bufferType = -1 then init_pmem_area env st bufferType
             else ⟨0, st⟩
  let st := ini.st
  if 0 ≤ masterOf st bufferType then
    pmemWithMaster env st size bufferType
  else
    if usage.hw2d = false then
      -- the caller did not request PMEM strictly: clear the flag and retry as ashmem
      tryAshmemPath env st size ⟨false, false⟩ bufferType
    else
      finishAlloc ini.err (-1) size ⟨false, true⟩ bufferType 0 0 0 env.pid st

/-- gralloc_alloc_buffer (gralloc.cpp lines 237-372).  ctxType is the
device context's bufferType (BUFFER_TYPE_GPU1 as set by
gralloc_device_open); junk stands for the value of the uninitialized
local bufferType on the plain-ashmem path where no usage flag sets it. -/
def gralloc_alloc_buffer (env : Env) (ctxType junk : BufferType) (st : SysState)
    (size0 : Nat) (usage : Usage) : AllocOut :=
  let size := roundUpToPageSize size0
  if usage.hw2d || usage.hwRender then pmemPath env st size ctxType usage
  else if usage.hwTexture then pmemPath env st size BufferType.PMEM usage
  else tryAshmemPath env st size ⟨false, false⟩ junk

/-- Modelled from the spec: mapFrameBufferLocked is the external
map_display_surface collaborator (framebuffer mapping lives outside this
source tree); on success it fills in the framebuffer record, the display
line length, vertical resolution and configured buffer count. -/
def mapFrameBufferLocked (env : Env) (st : SysState) : InitOut :=
  if env.fbMapOk then
    ⟨0,
     { st with m := { st.m with
         framebuffer := some ⟨env.fbBase, env.fbPhys⟩
         numBuffers := env.fbNumBuffers
         lineLength := env.fbLineLength
         yres := env.fbYres } }⟩
  else
    ⟨-(env.errno : Int), st⟩

/-- The slot-scan loop of gralloc_alloc_framebuffer_locked: index of the
lowest clear bit below numBuffers, if any. -/
def lowestClearAux (mask : Nat) : Nat → Nat → Option Nat
  | _, 0 => none
  | i, fuel + 1 => if mask.testBit i = false then some i else lowestClearAux mask (i + 1) fuel

def lowestClear (mask n : Nat) : Option Nat := lowestClearAux mask 0 n

/-- bufferMask &= ~(1 << idx) with a 32-bit complement. -/
def fbClearMask (mask idx : Nat) : Nat :=
  mask &&& (((1 <<< 32) - 1) ^^^ (1 <<< idx))

/-- gralloc_alloc_framebuffer_locked (gralloc.cpp lines 112-165). -/
def gralloc_alloc_framebuffer_locked (env : Env) (ctxType junk : BufferType)
    (st : SysState) (size : Nat) (usage : Usage) : AllocOut :=
  let ini := if st.m.framebuffer = none then mapFrameBufferLocked env st else ⟨0, st⟩
  if ini.err < 0 then ⟨ini.err, none, ini.st⟩
  else
    let st := ini.st
    match st.m.framebuffer with
    | none => ⟨ini.err, none, st⟩
    | some fb =>
      let bufferMask := st.m.bufferMask
      let numBuffers := st.m.numBuffers
      let bufferSize := st.m.lineLength * st.m.yres
      if numBuffers = 1 then
        -- single buffer: no page flipping, serve an ordinary buffer with
        -- HW_FB stripped and HW_2D substituted
        gralloc_alloc_buffer env ctxType junk st size
          { usage with hwFb := false, hw2d := true }
      else if bufferMask ≥ (1 <<< numBuffers) - 1 then
        ⟨-ENOMEM, none, st⟩
      else
        let o := openFd st
        let fd := o.fd
        let st := o.st
        match lowestClear bufferMask numBuffers with
        | some i =>
          let vaddr : Int := fb.base + (i : Int) * (bufferSize : Int)
          let st := { st with m := { st.m with bufferMask := bufferMask ||| (1 <<< i) } }
          ⟨0,
           some { mkHandle (fd : Int) size ⟨true, true⟩ BufferType.FB env.pid with
                  base := vaddr
                  offset := vaddr - fb.base
                  phys := fb.phys + (vaddr - fb.base) },
           st⟩
        | none =>
          -- unreachable under the mask guard: the loop falls through
          let vaddr : Int := fb.base + (numBuffers : Int) * (bufferSize : Int)
          ⟨0,
           some { mkHandle (fd : Int) size ⟨true, true⟩ BufferType.FB env.pid with
                  base := vaddr
                  offset := vaddr - fb.base
                  phys := fb.phys + (vaddr - fb.base) },
           st⟩

/-- gralloc_alloc_framebuffer: the locked variant under the module mutex. -/
def gralloc_alloc_framebuffer (env : Env) (ctxType junk : BufferType)
    (st : SysState) (size : Nat) (usage : Usage) : AllocOut :=
  gralloc_alloc_framebuffer_locked env ctxType junk st size usage

structure GAllocOut where
  ret : Int
  handle : Option private_handle_t
  stride : Option Nat
  st : SysState
deriving DecidableEq, Repr

/-- gralloc_alloc (gralloc.cpp lines 376-415): format dispatch, row and
total size computation in C int/size_t arithmetic, then either the
framebuffer path or the ordinary buffer path.  The out-parameters are
modelled as present (the null-pointer check on pHandle/pStride is not
represented). -/
def gralloc_alloc (env : Env) (ctxType junk : BufferType) (st : SysState)
    (w h : Int) (format : Int) (usage : Usage) : GAllocOut :=
  let bpp : Nat :=
    if format = HAL_PIXEL_FORMAT_RGBA_8888 ∨ format = HAL_PIXEL_FORMAT_BGRA_8888 then 4
    else if format = HAL_PIXEL_FORMAT_RGB_565 ∨ format = HAL_PIXEL_FORMAT_RGBA_5551 ∨
            format = HAL_PIXEL_FORMAT_RGBA_4444 then 2
    else 0
  if bpp = 0 then ⟨-EINVAL, none, none, st⟩
  else
    let t : Int := w * (bpp : Int) + 3
    -- (w*bpp + (align-1)) & ~(align-1) on int, converted to size_t
    let bpr : Nat := toSizeT (t - t % 4)
    let size : Nat := (bpr * toSizeT h) % 2 ^ 32
    let stride : Nat := bpr / bpp
    let r := if usage.hwFb then gralloc_alloc_framebuffer env ctxType junk st size usage
             else gralloc_alloc_buffer env ctxType junk st size usage
    if r.ret < 0 then ⟨r.ret, none, none, r.st⟩
    else ⟨0, r.handle, some stride, r.st⟩

structure FreeOut where
  ret : Int
  st : SysState
  stale : Option private_handle_t
deriving DecidableEq, Repr

/-- gralloc_free (gralloc.cpp lines 417-451).  stale is the handle
record after delete ran the destructor (none when validation failed and
nothing was destroyed).  The else-branch keeps the dead-coded
(true || flags & PRIV_FLAGS_USES_PMEM) condition of line 431. -/
def gralloc_free (st : SysState) (handle : Option private_handle_t) : FreeOut :=
  if validate handle < 0 then ⟨-EINVAL, st, none⟩
  else
    match handle with
    | none => ⟨-EINVAL, st, none⟩
    | some hnd =>
      let st :=
        if hnd.flags.framebuffer then
          match st.m.framebuffer with
          | none => st
          | some fb =>
            let bufferSize := st.m.lineLength * st.m.yres
            let index := ((hnd.base - fb.base).tdiv (bufferSize : Int)).toNat
            { st with m := { st.m with bufferMask := fbClearMask st.m.bufferMask index } }
        else if true || hnd.flags.usesPmem then
          if 0 ≤ hnd.fd then
            if hnd.bufferType = BufferType.PMEM then
              { st with
                sAlloc := st.sAlloc.deallocate hnd.offset
                zeroed := (hnd.base, hnd.size) :: st.zeroed }
            else
              { st with
                sGPUAlloc := st.sGPUAlloc.deallocate hnd.offset
                zeroed := (hnd.base, hnd.size) :: st.zeroed }
          else st
        else st
      let st := closeFd st hnd.fd
      ⟨0, st, some (destroyHandle hnd)⟩

/-! ### Concrete states and environments used by witnesses -/

/-- The initial module state of HAL_MODULE_INFO_SYM together with the
two freshly constructed static allocators sAllocator(10 MiB) and
sGPUAllocator(3 MiB). -/
def initialState : SysState :=
  { m := { framebuffer := none, numBuffers := 0, bufferMask := 0,
           lineLength := 0, yres := 0,
           pmem_master := -1, pmem_master_base := 0,
           gpu_master := -1, gpu_master_base := 0, master_phys := 0 }
    sAlloc := SimpleBestFitAllocator (10 * 1024 * 1024)
    sGPUAlloc := SimpleBestFitAllocator (3 * 1024 * 1024)
    nextFd := 3
    openFds := []
    zeroed := [] }

def envAllOk : Env :=
  { ashmemOk := true, pmemDevOk := true, gpu0DevOk := true, gpu1DevOk := true,
    mmapOk := true, connectOk := true, mapIoctlOk := true, getPhysOk := true,
    physBase := 0, pmemMmapBase := 0, gpuMmapBase := 0,
    fbBase := 0, fbPhys := 0, fbLineLength := 0, fbYres := 0,
    fbNumBuffers := 0, fbMapOk := false, errno := 2, pid := 0 }

/-- Physical pools unavailable (device nodes cannot be opened), ashmem fine. -/
def envPoolDown : Env :=
  { envAllOk with pmemDevOk := false, gpu0DevOk := false, gpu1DevOk := false }

/-- Pool device fine but PMEM_CONNECT fails. -/
def envConnectFail : Env :=
  { envAllOk with connectOk := false }

def usageNone : Usage := ⟨false, false, false, false⟩
def usageTexture : Usage := ⟨false, false, true, false⟩
def usageRender : Usage := ⟨true, false, false, false⟩
def usage2d : Usage := ⟨false, true, false, false⟩
def usageFb : Usage := ⟨false, false, false, true⟩

/-- A state whose pmem master is already open with a fresh pool. -/
def stMaster : SysState :=
  { initialState with
    m := { initialState.m with pmem_master := 3, pmem_master_base := 0 }
    nextFd := 4
    openFds := [3] }

/-- A pmem pool with the extent at offset 0 (4096 bytes) allocated. -/
def poolWithZeroAllocated : BestFit :=
  { heapSize := 10 * 1024 * 1024
    free := [(4096, 10 * 1024 * 1024 - 4096)]
    allocated := [(0, 4096)] }

/-- State for the C2 failing input: some pmem buffer owns offset 0. -/
def stC2 : SysState :=
  { initialState with sAlloc := poolWithZeroAllocated, nextFd := 6, openFds := [3, 5] }

/-- An anonymous-shared-memory handle: no framebuffer flag, no pmem
flag, a live descriptor; bufferType PMEM as produced by the
texture-usage fallback path. -/
def hAshmem : private_handle_t :=
  { mkHandle 5 4096 ⟨false, false⟩ BufferType.PMEM 0 with base := 7000 }

/-- A handle with a cleared magic (already freed), for invalid-free tests. -/
def hStale : private_handle_t :=
  { mkHandle 4 4096 ⟨false, false⟩ BufferType.PMEM 0 with magic := 0 }

/-- A plain valid ashmem handle for the destruction test. -/
def hValid : private_handle_t :=
  mkHandle 4 4096 ⟨false, false⟩ BufferType.GPU1 0

/-- A mapped two-buffer framebuffer state with a full slot bitmask. -/
def stFbFull : SysState :=
  { initialState with
    m := { initialState.m with
           framebuffer := some ⟨100000, 900000⟩
           numBuffers := 2
           bufferMask := 3
           lineLength := 1280
           yres := 800 } }

/-- The scanout handle of slot 0 in stFbFull. -/
def hSlot0 : private_handle_t :=
  { mkHandle 6 1024000 ⟨true, true⟩ BufferType.FB 0 with
    base := 100000, offset := 0, phys := 900000 }

/-- The full behavioral contract of the framebuffer slot allocator claimed
by C7, for a state whose display surface is already mapped: a full slot
bitmask fails with -ENOMEM and changes nothing; otherwise the lowest
clear slot index i is claimed, the handle points at surface base plus i
times the per-buffer size, and freeing that handle clears exactly bit i;
and from a full mask, freeing one slot handle permits exactly one more
successful scanout allocation. -/
def ScanoutSlotSpec (env : Env) (ctxType junk : BufferType) (st : SysState)
    (fb : FbInfo) (size0 : Nat) (usage : Usage) : Prop :=
  (st.m.bufferMask = 2 ^ st.m.numBuffers - 1 →
    gralloc_alloc_framebuffer_locked env ctxType junk st size0 usage
      = ⟨-ENOMEM, none, st⟩) ∧
  (st.m.bufferMask ≠ 2 ^ st.m.numBuffers - 1 →
    ∃ i, lowestClear st.m.bufferMask st.m.numBuffers = some i ∧
      i < st.m.numBuffers ∧
      st.m.bufferMask.testBit i = false ∧
      (∀ j, j < i → st.m.bufferMask.testBit j = true) ∧
      (gralloc_alloc_framebuffer_locked env ctxType junk st size0 usage).ret = 0 ∧
      ∃ hh, (gralloc_alloc_framebuffer_locked env ctxType junk st size0 usage).handle
          = some hh ∧
        hh.base = fb.base + (i : Int) * ((st.m.lineLength * st.m.yres : Nat) : Int) ∧
        (gralloc_alloc_framebuffer_locked env ctxType junk st size0 usage).st.m.bufferMask
          = st.m.bufferMask ||| (1 <<< i) ∧
        (gralloc_free
            (gralloc_alloc_framebuffer_locked env ctxType junk st size0 usage).st
            (some hh)).st.m.bufferMask = st.m.bufferMask) ∧
  (st.m.bufferMask = 2 ^ st.m.numBuffers - 1 →
    ∀ i0, i0 < st.m.numBuffers →
    ∀ hh0 : private_handle_t, validateH hh0 = 0 → hh0.flags.framebuffer = true →
      hh0.base = fb.base + (i0 : Int) * ((st.m.lineLength * st.m.yres : Nat) : Int) →
      ((gralloc_free st (some hh0)).st.m.bufferMask.testBit i0 = false ∧
       (∀ j, j ≠ i0 → (gralloc_free st (some hh0)).st.m.bufferMask.testBit j
          = st.m.bufferMask.testBit j) ∧
       (gralloc_alloc_framebuffer_locked env ctxType junk
          (gralloc_free st (some hh0)).st size0 usage).ret = 0 ∧
       ((gralloc_alloc_framebuffer_locked env ctxType junk
          (gralloc_free st (some hh0)).st size0 usage).handle).isSome = true ∧
       (gralloc_alloc_framebuffer_locked env ctxType junk
          (gralloc_free st (some hh0)).st size0 usage).st.m.bufferMask
          = 2 ^ st.m.numBuffers - 1 ∧
       gralloc_alloc_framebuffer_locked env ctxType junk
         (gralloc_alloc_framebuffer_locked env ctxType junk
            (gralloc_free st (some hh0)).st size0 usage).st size0 usage
         = ⟨-ENOMEM, none,
            (gralloc_alloc_framebuffer_locked env ctxType junk
               (gralloc_free st (some hh0)).st size0 usage).st⟩))

/-- The handle produced by a plain ashmem allocation from initialState. -/
def hC10 : private_handle_t :=
  mkHandle 3 4096 ⟨false, false⟩ BufferType.PMEM 0

/-! ### Helper lemmas about validation -/

theorem validateH_eq_zero_iff (h : private_handle_t) :
    validateH h = 0 ↔
      h.version = sizeof_native_handle ∧ h.numInts = sNumInts ∧
      h.numFds = sNumFds ∧ h.magic = sMagic := by
  unfold validateH
  split
  · rename_i hs
    constructor
    · intro h0
      exact absurd h0 (by simp [EINVAL])
    · intro ⟨h1, h2, h3, _⟩
      exact absurd hs (by simp [h1, h2, h3])
  · rename_i hs
    push_neg at hs
    split
    · rename_i hm
      constructor
      · intro h0
        exact absurd h0 (by simp [EINVAL])
      · intro ⟨_, _, _, h4⟩
        exact absurd h4 hm
    · rename_i hm
      push_neg at hm
      simp [hs.1, hs.2.1, hs.2.2, hm]

theorem validateH_values (h : private_handle_t) :
    validateH h = 0 ∨ validateH h = -EINVAL := by
  unfold validateH
  split
  · exact Or.inr rfl
  · split
    · exact Or.inr rfl
    · exact Or.inl rfl

theorem validateH_eq_zero_of (h : private_handle_t)
    (h1 : h.version = sizeof_native_handle) (h2 : h.numInts = sNumInts)
    (h3 : h.numFds = sNumFds) (h4 : h.magic = sMagic) : validateH h = 0 :=
  (validateH_eq_zero_iff h).mpr ⟨h1, h2, h3, h4⟩

/-! ### Claim C4 -/

/-- C4: validate returns Ok (0) exactly when the candidate is non-null
with the native-handle header size as version, the fixed shape counts
(numInts = 8, numFds = 1) and the magic signature 0x3141592; in every
other case it returns Invalid (-EINVAL). -/
theorem C4_validate_shape_and_magic (c : Option private_handle_t) :
    (validate c = 0 ↔
      ∃ hh, c = some hh ∧ hh.version = sizeof_native_handle ∧
        hh.numInts = sNumInts ∧ hh.numFds = sNumFds ∧ hh.magic = sMagic) ∧
    (validate c = 0 ∨ validate c = -EINVAL) := by
  cases c with
  | none =>
    refine ⟨?_, Or.inr rfl⟩
    simp [validate, EINVAL]
  | some hh =>
    refine ⟨?_, validateH_values hh⟩
    simp only [validate]
    rw [validateH_eq_zero_iff]
    constructor
    · intro hfields
      exact ⟨hh, rfl, hfields⟩
    · intro ⟨hh2, heq, hfields⟩
      cases heq
      exact hfields

/-! ### Claim C5 -/

/-- C5: freeing a handle that fails validation returns Invalid (-EINVAL)
and performs no resource release: the entire system state (slot bitmask,
pool free lists, open descriptors, zeroed-memory log) is unchanged and
no handle record is destroyed. -/
theorem C5_invalid_free_releases_nothing (st : SysState)
    (c : Option private_handle_t) (h : validate c < 0) :
    gralloc_free st c = ⟨-EINVAL, st, none⟩ := by
  unfold gralloc_free
  rw [if_pos h]

theorem C5_invalid_free_releases_nothing_witness :
    validate (some hStale) < 0 ∧
    gralloc_free initialState (some hStale) = ⟨-EINVAL, initialState, none⟩ :=
  ⟨by decide, C5_invalid_free_releases_nothing initialState (some hStale) (by decide)⟩

/-! ### Claim C8 -/

/-- C8: the destructor clears the magic signature to zero, so after a
successful free of a valid handle, validate on the stale record reports
Invalid. -/
theorem C8_freed_handle_fails_validate (st : SysState) (hnd : private_handle_t)
    (h : validate (some hnd) = 0) :
    (gralloc_free st (some hnd)).ret = 0 ∧
    (gralloc_free st (some hnd)).stale = some (destroyHandle hnd) ∧
    (destroyHandle hnd).magic = 0 ∧
    validate ((gralloc_free st (some hnd)).stale) = -EINVAL := by
  have hfields := (validateH_eq_zero_iff hnd).mp h
  have hnotlt : ¬ validate (some hnd) < 0 := by rw [h]; omega
  unfold gralloc_free
  rw [if_neg hnotlt]
  refine ⟨rfl, rfl, rfl, ?_⟩
  simp only [validate, destroyHandle, validateH]
  rw [if_neg, if_pos]
  · simp [sMagic]
  · simp [hfields.1, hfields.2.1, hfields.2.2.1]

theorem C8_freed_handle_fails_validate_witness :
    validate (some hValid) = 0 ∧
    ((gralloc_free initialState (some hValid)).ret = 0 ∧
     (gralloc_free initialState (some hValid)).stale = some (destroyHandle hValid) ∧
     (destroyHandle hValid).magic = 0 ∧
     validate ((gralloc_free initialState (some hValid)).stale) = -EINVAL) :=
  ⟨by decide, C8_freed_handle_fails_validate initialState hValid (by decide)⟩

/-! ### Claim C2 (code bug evidence) -/

/-- C2: evaluation of gralloc_free at the failing input.  hAshmem is an
anonymous shared-memory handle (no framebuffer flag, no pmem flag, live
descriptor).  The dead-coded (true || ...) condition of gralloc.cpp line
431 routes it through the pool branch anyway: the pmem pool's extent at
offset 0 is deallocated (the free list visibly changes back to one big
extent) and the handle's memory range is zeroed, contradicting the
specified behavior of releasing only the descriptor. -/
theorem C2_ashmem_free_corrupts_pool :
    hAshmem.flags.usesPmem = false ∧
    hAshmem.flags.framebuffer = false ∧
    0 ≤ hAshmem.fd ∧
    (gralloc_free stC2 (some hAshmem)).ret = 0 ∧
    (gralloc_free stC2 (some hAshmem)).st.sAlloc ≠ stC2.sAlloc ∧
    (gralloc_free stC2 (some hAshmem)).st.sAlloc = SimpleBestFitAllocator (10 * 1024 * 1024) ∧
    (gralloc_free stC2 (some hAshmem)).st.zeroed = [(7000, 4096)] ∧
    stC2.zeroed = [] := by
  decide

/-! ### Claim C1 (counterexample) -/

/-- C1 counterexample: a request with the hardware-render-target flag
(GRALLOC_USAGE_HW_RENDER) alone, with the physical pool device
unavailable, does NOT fail with a device error: gralloc.cpp line 346
only treats GRALLOC_USAGE_HW_2D as strict, so the request falls back to
anonymous shared memory and succeeds with the pmem flag cleared. -/
theorem C1_render_usage_falls_back :
    usageRender.hwRender = true ∧
    (gralloc_alloc_buffer envPoolDown BufferType.GPU1 BufferType.PMEM initialState
      4096 usageRender).ret = 0 ∧
    ((gralloc_alloc_buffer envPoolDown BufferType.GPU1 BufferType.PMEM initialState
      4096 usageRender).handle.map fun hh => hh.flags.usesPmem) = some false := by
  decide

/-! ### Claim C3 -/

/-- C3 counterexample: the 64x64 RGBA_8888 texture-usage allocation with
the pool available succeeds but returns row stride 64 (pixels), not 256:
gralloc_alloc computes stride = bpr / bpp = 256 / 4. -/
theorem C3_stride_is_64_not_256 :
    (gralloc_alloc envAllOk BufferType.GPU1 BufferType.PMEM initialState 64 64
      HAL_PIXEL_FORMAT_RGBA_8888 usageTexture).stride = some 64 ∧
    ¬ (gralloc_alloc envAllOk BufferType.GPU1 BufferType.PMEM initialState 64 64
      HAL_PIXEL_FORMAT_RGBA_8888 usageTexture).stride = some 256 := by
  decide

/-- C3 amended: the allocation succeeds, returns row stride 64 pixels
(the row is 256 bytes), a handle whose backing kind is the physical pmem
pool, and a handle that passes validate. -/
theorem C3_amended_end_to_end :
    (gralloc_alloc envAllOk BufferType.GPU1 BufferType.PMEM initialState 64 64
      HAL_PIXEL_FORMAT_RGBA_8888 usageTexture).ret = 0 ∧
    (gralloc_alloc envAllOk BufferType.GPU1 BufferType.PMEM initialState 64 64
      HAL_PIXEL_FORMAT_RGBA_8888 usageTexture).stride = some 64 ∧
    ((gralloc_alloc envAllOk BufferType.GPU1 BufferType.PMEM initialState 64 64
      HAL_PIXEL_FORMAT_RGBA_8888 usageTexture).handle.map fun hh => hh.bufferType)
      = some BufferType.PMEM ∧
    ((gralloc_alloc envAllOk BufferType.GPU1 BufferType.PMEM initialState 64 64
      HAL_PIXEL_FORMAT_RGBA_8888 usageTexture).handle.map fun hh => hh.flags.usesPmem)
      = some true ∧
    validate (gralloc_alloc envAllOk BufferType.GPU1 BufferType.PMEM initialState 64 64
      HAL_PIXEL_FORMAT_RGBA_8888 usageTexture).handle = 0 := by
  decide

/-! ### Claim C9 (counterexample) -/

/-- C9 counterexample: gralloc_alloc never validates width or height; a
request with height 0 (not positive) and a supported format succeeds
instead of failing with -EINVAL. -/
theorem C9_nonpositive_height_accepted :
    (gralloc_alloc envAllOk BufferType.GPU1 BufferType.PMEM initialState 64 0
      HAL_PIXEL_FORMAT_RGBA_8888 usageNone).ret = 0 ∧
    ¬ (gralloc_alloc envAllOk BufferType.GPU1 BufferType.PMEM initialState 64 0
      HAL_PIXEL_FORMAT_RGBA_8888 usageNone).ret = -EINVAL := by
  decide

/-- C9 amended: only the pixel format (and the out-pointers) are
validated: a format outside the fixed enumerated set fails with -EINVAL
and changes nothing, for every width, height and usage. -/
theorem C9_amended_unsupported_format_rejected (env : Env) (ctxType junk : BufferType)
    (st : SysState) (w h : Int) (format : Int) (usage : Usage)
    (h1 : format ≠ HAL_PIXEL_FORMAT_RGBA_8888)
    (h2 : format ≠ HAL_PIXEL_FORMAT_BGRA_8888)
    (h3 : format ≠ HAL_PIXEL_FORMAT_RGB_565)
    (h4 : format ≠ HAL_PIXEL_FORMAT_RGBA_5551)
    (h5 : format ≠ HAL_PIXEL_FORMAT_RGBA_4444) :
    gralloc_alloc env ctxType junk st w h format usage = ⟨-EINVAL, none, none, st⟩ := by
  simp [gralloc_alloc, h1, h2, h3, h4, h5]

/-! ### Best-fit allocator round-trip lemmas (for C6) -/

theorem coalesce_of_pairwise (l : List Extent)
    (h : List.Pairwise (fun a b : Extent => a.1 + a.2 < b.1) l) : coalesce l = l := by
  induction l with
  | nil => rfl
  | cons a rest ih =>
    obtain ⟨ha, hrest⟩ := List.pairwise_cons.mp h
    rw [coalesce, ih hrest]
    cases rest with
    | nil => rfl
    | cons b t =>
      have hab : a.1 + a.2 < b.1 := ha b (List.mem_cons_self b t)
      rw [coalesceStep, if_neg (by omega)]

theorem free_roundtrip (l : List Extent) (o len sz : Nat)
    (hmem : (o, len) ∈ l) (hle : sz ≤ len)
    (hp : List.Pairwise (fun a b : Extent => a.1 + a.2 < b.1) l) :
    coalesce (insertFree (removeSplit l o sz) (o, sz)) = l := by
  induction l with
  | nil => exact absurd hmem (List.not_mem_nil _)
  | cons a rest ih =>
    obtain ⟨ha, hrest⟩ := List.pairwise_cons.mp hp
    rcases List.mem_cons.mp hmem with heq | hmemr
    · -- the head is the allocated extent
      cases heq
      rw [removeSplit, if_pos rfl]
      by_cases hls : len = sz
      · cases hls
        rw [if_pos rfl]
        cases rest with
        | nil => rfl
        | cons b t =>
          have hab : o + len < b.1 := ha b (List.mem_cons_self b t)
          rw [insertFree, if_pos (by omega)]
          rw [coalesce, coalesce_of_pairwise _ hrest, coalesceStep, if_neg (by omega)]
      · rw [if_neg (by simp [hls])]
        rw [insertFree, if_pos (by omega)]
        rw [coalesce, coalesce, coalesce_of_pairwise _ hrest]
        cases rest with
        | nil =>
          rw [coalesceStep, coalesceStep, if_pos rfl]
          have hlen : sz + (len - sz) = len := by omega
          rw [hlen]
        | cons b t =>
          have hab : o + len < b.1 := ha b (List.mem_cons_self b t)
          rw [coalesceStep, if_neg (by simp; omega)]
          rw [coalesceStep, if_pos rfl]
          have hlen : sz + (len - sz) = len := by omega
          rw [hlen]
    · -- the allocated extent is further down
      have hao : a.1 + a.2 < o := ha (o, len) hmemr
      rw [removeSplit, if_neg (by omega)]
      rw [insertFree, if_neg (by simp; omega)]
      rw [coalesce, ih hmemr hrest]
      cases rest with
      | nil => exact absurd hmemr (List.not_mem_nil _)
      | cons b t =>
        have hab : a.1 + a.2 < b.1 := ha b (List.mem_cons_self b t)
        rw [coalesceStep, if_neg (by omega)]

theorem bestFitChoose_cases (sz : Nat) (a : Extent) (ob : Option Extent) (e : Extent)
    (h : bestFitChoose sz a ob = some e) : (e = a ∧ sz ≤ a.2) ∨ ob = some e := by
  cases ob with
  | none =>
    rw [bestFitChoose] at h
    split at h
    · exact Or.inl ⟨(Option.some.inj h).symm, by assumption⟩
    · exact absurd h (by simp)
  | some b =>
    rw [bestFitChoose] at h
    split at h
    · rename_i hc
      exact Or.inl ⟨(Option.some.inj h).symm, hc.1⟩
    · exact Or.inr h

theorem bestFitFind_mem (l : List Extent) (sz : Nat) (e : Extent)
    (h : bestFitFind l sz = some e) : e ∈ l ∧ sz ≤ e.2 := by
  induction l generalizing e with
  | nil => exact absurd h (by simp [bestFitFind])
  | cons a rest ih =>
    rw [bestFitFind] at h
    rcases bestFitChoose_cases _ _ _ _ h with ⟨heq, hle⟩ | hrec
    · subst heq
      exact ⟨List.mem_cons_self _ rest, hle⟩
    · obtain ⟨hm, hl⟩ := ih e hrec
      exact ⟨List.mem_cons_of_mem a hm, hl⟩

theorem lookupLen_cons_self (o sz : Nat) (rest : List Extent) :
    lookupLen ((o, sz) :: rest) o = some sz := by
  rw [lookupLen, if_pos rfl]

theorem removeKey_cons_self (o sz : Nat) (rest : List Extent) :
    removeKey ((o, sz) :: rest) o = rest := by
  rw [removeKey, if_pos rfl]

/-- Releasing an extent immediately after reserving it restores the pool
exactly (the spec's no-leak-on-partial-failure obligation at the level of
one pool). -/
theorem BestFit.dealloc_alloc (p : BestFit) (size : Nat) (e : Extent)
    (hWf : p.Wf)
    (hfind : bestFitFind p.free (roundUpToPageSize size) = some e) :
    ((p.allocate size).pool).deallocate ((p.allocate size).offset) = p := by
  obtain ⟨hmem, hle⟩ := bestFitFind_mem _ _ _ hfind
  simp only [BestFit.allocate]
  rw [hfind, allocApply]
  unfold BestFit.deallocate
  rw [if_neg (by simp)]
  simp only [Int.toNat_natCast]
  rw [lookupLen_cons_self, deallocApply, removeKey_cons_self]
  have hfree : coalesce (insertFree (removeSplit p.free e.1 (roundUpToPageSize size))
      (e.1, roundUpToPageSize size)) = p.free :=
    free_roundtrip p.free e.1 e.2 (roundUpToPageSize size) hmem hle hWf
  rw [hfree]

theorem roundUpToPageSize_idem (x : Nat) :
    roundUpToPageSize (roundUpToPageSize x) = roundUpToPageSize x := by
  unfold roundUpToPageSize PAGE_SIZE
  omega

theorem C9_amended_unsupported_format_rejected_witness :
    (0 : Int) ≠ HAL_PIXEL_FORMAT_RGBA_8888 ∧
    (0 : Int) ≠ HAL_PIXEL_FORMAT_BGRA_8888 ∧
    (0 : Int) ≠ HAL_PIXEL_FORMAT_RGB_565 ∧
    (0 : Int) ≠ HAL_PIXEL_FORMAT_RGBA_5551 ∧
    (0 : Int) ≠ HAL_PIXEL_FORMAT_RGBA_4444 ∧
    gralloc_alloc envAllOk BufferType.GPU1 BufferType.PMEM initialState 64 64 0 usageNone
      = ⟨-EINVAL, none, none, initialState⟩ :=
  ⟨by decide, by decide, by decide, by decide, by decide,
   C9_amended_unsupported_format_rejected envAllOk BufferType.GPU1 BufferType.PMEM
     initialState 64 64 0 usageNone (by decide) (by decide) (by decide) (by decide)
     (by decide)⟩

/-! ### Claim C6 -/

/-- Unwinding lemma for the physical-pool allocation path: when the
extent is reserved but the secondary open, PMEM_CONNECT or PMEM_MAP
fails, the error is surfaced, both pool allocators and the set of open
descriptors are exactly as before the call, and no memory is zeroed. -/
theorem pmemPath_partial_failure (env : Env) (st : SysState) (size : Nat)
    (bt : BufferType) (usage : Usage) (e : Extent)
    (hmaster : 0 ≤ masterOf st bt)
    (hWf : (poolOf st bt).Wf)
    (hfind : bestFitFind (poolOf st bt).free (roundUpToPageSize size) = some e)
    (hfail : secDevOk env bt = false ∨ env.connectOk = false ∨ env.mapIoctlOk = false)
    (herrno : 0 < env.errno) :
    (pmemPath env st size bt usage).ret < 0 ∧
    (pmemPath env st size bt usage).handle = none ∧
    (pmemPath env st size bt usage).st.sAlloc = st.sAlloc ∧
    (pmemPath env st size bt usage).st.sGPUAlloc = st.sGPUAlloc ∧
    (pmemPath env st size bt usage).st.openFds = st.openFds ∧
    (pmemPath env st size bt usage).st.zeroed = st.zeroed := by
  have hne : ¬ (masterOf st bt = -1) := by omega
  have hrt : ((poolOf st bt).allocate size) =
      allocApply (poolOf st bt) (roundUpToPageSize size) (some e) := by
    simp only [BestFit.allocate, hfind]
  have hpool := BestFit.dealloc_alloc (poolOf st bt) size e hWf hfind
  have hoff : ¬ (((poolOf st bt).allocate size).offset < 0) := by
    rw [hrt, allocApply]; simp
  have herrlt : -((env.errno : Nat) : Int) < 0 := by omega
  have herrne : ¬ (-((env.errno : Nat) : Int) = 0) := by omega
  have hfd : ¬ ((st.nextFd : Int) < 0) := by omega
  by_cases hbt : bt = BufferType.PMEM
  · subst hbt
    simp [poolOf] at hWf hfind hrt hpool hoff
    have hoff2 := not_lt.mpr hoff
    by_cases hdev : secDevOk env BufferType.PMEM
    · by_cases hconn : env.connectOk
      · by_cases hmap : env.mapIoctlOk
        · exfalso
          rcases hfail with h | h | h <;> simp_all
        · simp [pmemPath, pmemWithMaster, pmemSecondary, hne, hmaster, hoff2, hdev, hconn, hmap, finishAlloc, hfd, Int.toNat_natCast,
                closeFd, openFd, hpool, List.erase_cons_head, EBADF]
      · simp [pmemPath, pmemWithMaster, pmemSecondary, hne, hmaster, hoff2, hdev, hconn, finishAlloc, hfd, Int.toNat_natCast,
              closeFd, openFd, hpool, List.erase_cons_head, herrlt, herrne]
    · simp [pmemPath, pmemWithMaster, pmemSecondary, hne, hmaster, hoff2, hdev, finishAlloc,
            closeFd, openFd, hpool, List.erase_cons_head, EBADF]
  · simp [poolOf, hbt] at hWf hfind hrt hpool hoff
    have hoff2 := not_lt.mpr hoff
    by_cases hdev : secDevOk env bt
    · by_cases hconn : env.connectOk
      · by_cases hmap : env.mapIoctlOk
        · exfalso
          rcases hfail with h | h | h <;> simp_all
        · simp [pmemPath, pmemWithMaster, pmemSecondary, hne, hmaster, hoff2, hbt, hdev, hconn, hmap, finishAlloc, hfd, Int.toNat_natCast,
                closeFd, openFd, hpool, List.erase_cons_head, EBADF]
      · simp [pmemPath, pmemWithMaster, pmemSecondary, hne, hmaster, hoff2, hbt, hdev, hconn, finishAlloc, hfd, Int.toNat_natCast,
              closeFd, openFd, hpool, List.erase_cons_head, herrlt, herrne]
    · simp [pmemPath, pmemWithMaster, pmemSecondary, hne, hmaster, hoff2, hbt, hdev, finishAlloc,
            closeFd, openFd, hpool, List.erase_cons_head, EBADF]

/-- C6: for every physical-pool allocation in which an extent has been
reserved but a subsequent step (secondary descriptor open, PMEM_CONNECT,
PMEM_MAP) fails, the extent is released back to that pool allocator and
the secondary descriptor is closed before the error is returned: the
final pool states and open-descriptor set equal the initial ones. -/
theorem C6_partial_failure_unwinds (env : Env) (ctxType junk : BufferType)
    (st : SysState) (size0 : Nat) (usage : Usage) (bt : BufferType) (e : Extent)
    (hbt : bt = if usage.hw2d || usage.hwRender then ctxType else BufferType.PMEM)
    (husage : usage.hw2d = true ∨ usage.hwRender = true ∨ usage.hwTexture = true)
    (hmaster : 0 ≤ masterOf st bt)
    (hWf : (poolOf st bt).Wf)
    (hfind : bestFitFind (poolOf st bt).free (roundUpToPageSize size0) = some e)
    (hfail : secDevOk env bt = false ∨ env.connectOk = false ∨ env.mapIoctlOk = false)
    (herrno : 0 < env.errno) :
    (gralloc_alloc_buffer env ctxType junk st size0 usage).ret < 0 ∧
    (gralloc_alloc_buffer env ctxType junk st size0 usage).handle = none ∧
    (gralloc_alloc_buffer env ctxType junk st size0 usage).st.sAlloc = st.sAlloc ∧
    (gralloc_alloc_buffer env ctxType junk st size0 usage).st.sGPUAlloc = st.sGPUAlloc ∧
    (gralloc_alloc_buffer env ctxType junk st size0 usage).st.openFds = st.openFds ∧
    (gralloc_alloc_buffer env ctxType junk st size0 usage).st.zeroed = st.zeroed := by
  have hfind2 : bestFitFind (poolOf st bt).free
      (roundUpToPageSize (roundUpToPageSize size0)) = some e := by
    rw [roundUpToPageSize_idem]; exact hfind
  have key := pmemPath_partial_failure env st (roundUpToPageSize size0) bt usage e
    hmaster hWf hfind2 hfail herrno
  have heq : gralloc_alloc_buffer env ctxType junk st size0 usage =
      pmemPath env st (roundUpToPageSize size0) bt usage := by
    cases hu : (usage.hw2d || usage.hwRender) with
    | true => simp [gralloc_alloc_buffer, hu, hbt]
    | false =>
      have ht : usage.hwTexture = true := by
        rcases husage with h | h | h <;> simp_all
      simp [gralloc_alloc_buffer, hu, ht, hbt]
  rw [heq]
  exact key

theorem C6_partial_failure_unwinds_witness :
    (BufferType.PMEM =
      if usageTexture.hw2d || usageTexture.hwRender then BufferType.GPU1
      else BufferType.PMEM) ∧
    (usageTexture.hw2d = true ∨ usageTexture.hwRender = true ∨
      usageTexture.hwTexture = true) ∧
    0 ≤ masterOf stMaster BufferType.PMEM ∧
    (poolOf stMaster BufferType.PMEM).Wf ∧
    bestFitFind (poolOf stMaster BufferType.PMEM).free (roundUpToPageSize 4096)
      = some (0, 10 * 1024 * 1024) ∧
    (secDevOk envConnectFail BufferType.PMEM = false ∨
      envConnectFail.connectOk = false ∨ envConnectFail.mapIoctlOk = false) ∧
    0 < envConnectFail.errno ∧
    ((gralloc_alloc_buffer envConnectFail BufferType.GPU1 BufferType.PMEM stMaster
        4096 usageTexture).ret < 0 ∧
     (gralloc_alloc_buffer envConnectFail BufferType.GPU1 BufferType.PMEM stMaster
        4096 usageTexture).handle = none ∧
     (gralloc_alloc_buffer envConnectFail BufferType.GPU1 BufferType.PMEM stMaster
        4096 usageTexture).st.sAlloc = stMaster.sAlloc ∧
     (gralloc_alloc_buffer envConnectFail BufferType.GPU1 BufferType.PMEM stMaster
        4096 usageTexture).st.sGPUAlloc = stMaster.sGPUAlloc ∧
     (gralloc_alloc_buffer envConnectFail BufferType.GPU1 BufferType.PMEM stMaster
        4096 usageTexture).st.openFds = stMaster.openFds ∧
     (gralloc_alloc_buffer envConnectFail BufferType.GPU1 BufferType.PMEM stMaster
        4096 usageTexture).st.zeroed = stMaster.zeroed) :=
  ⟨by decide, by decide, by decide, by decide, by decide, by decide, by decide,
   C6_partial_failure_unwinds envConnectFail BufferType.GPU1 BufferType.PMEM stMaster
     4096 usageTexture BufferType.PMEM (0, 10 * 1024 * 1024) (by decide) (by decide)
     (by decide) (by decide) (by decide) (by decide) (by decide)⟩

/-! ### Claim C7 -/

/-! ### Bitmask lemmas for the framebuffer slot allocator -/

theorem fbClearMask_testBit (mask idx : Nat) (hidx : idx < 32) (j : Nat) :
    (fbClearMask mask idx).testBit j =
      (mask.testBit j && (decide (j < 32) && ! decide (j = idx))) := by
  unfold fbClearMask
  rw [Nat.testBit_land, Nat.testBit_xor, Nat.one_shiftLeft, Nat.one_shiftLeft]
  have h32 : (1 <<< 32 - 1 : Nat) = 2 ^ 32 - 1 := by rw [Nat.one_shiftLeft]
  rw [show ((2:Nat) ^ 32 - 1) = 2 ^ 32 - 1 from rfl]
  rw [Nat.testBit_two_pow_sub_one]
  by_cases hj : j = idx
  · subst hj
    simp [Nat.testBit_two_pow_self, hidx]
  · rw [Nat.testBit_two_pow_of_ne (fun hc => hj hc.symm)]
    by_cases hj32 : j < 32 <;> simp [hj32, hj]

theorem set_bit_testBit (mask i j : Nat) :
    (mask ||| (1 <<< i)).testBit j = (mask.testBit j || decide (j = i)) := by
  rw [Nat.testBit_lor, Nat.one_shiftLeft]
  by_cases hj : j = i
  · subst hj
    simp [Nat.testBit_two_pow_self]
  · rw [Nat.testBit_two_pow_of_ne (fun hc => hj hc.symm)]
    simp [hj]

/-- Clearing a freshly set bit restores the mask. -/
theorem clear_set_roundtrip (mask i : Nat) (hm : mask < 2 ^ 32) (hi : i < 32)
    (hbit : mask.testBit i = false) :
    fbClearMask (mask ||| (1 <<< i)) i = mask := by
  apply Nat.eq_of_testBit_eq
  intro j
  rw [fbClearMask_testBit _ _ hi, set_bit_testBit]
  by_cases hj : j = i
  · subst hj
    simp [hbit]
  · by_cases hj32 : j < 32
    · simp [hj, hj32]
    · have : mask.testBit j = false :=
        Nat.testBit_eq_false_of_lt (lt_of_lt_of_le hm (Nat.pow_le_pow_right (by omega) (by omega)))
      simp [hj, hj32, this]

/-- Setting a just-cleared bit of the full mask restores the full mask. -/
theorem set_clear_full (n i : Nat) (hn : n ≤ 32) (hi : i < n) :
    fbClearMask (2 ^ n - 1) i ||| (1 <<< i) = 2 ^ n - 1 := by
  apply Nat.eq_of_testBit_eq
  intro j
  rw [set_bit_testBit, fbClearMask_testBit _ _ (by omega), Nat.testBit_two_pow_sub_one]
  by_cases hj : j = i
  · subst hj
    simp [hi]
  · by_cases hjn : j < n
    · simp [hj, hjn]
      omega
    · simp [hj, hjn]

theorem all_set_ge (mask n : Nat) (h : ∀ j, j < n → mask.testBit j = true) :
    2 ^ n - 1 ≤ mask := by
  have h1 : mask &&& (2 ^ n - 1) = 2 ^ n - 1 := by
    apply Nat.eq_of_testBit_eq
    intro j
    rw [Nat.testBit_land, Nat.testBit_two_pow_sub_one]
    by_cases hj : j < n
    · simp [hj, h j hj]
    · simp [hj]
  calc 2 ^ n - 1 = mask &&& (2 ^ n - 1) := h1.symm
    _ ≤ mask := Nat.and_le_left

theorem exists_lowest_clear (mask n : Nat) (h : mask < 2 ^ n - 1) :
    ∃ i, i < n ∧ mask.testBit i = false ∧ ∀ j, j < i → mask.testBit j = true := by
  have hex : ∃ j, mask.testBit j = false := by
    by_contra hc
    push_neg at hc
    have hall : ∀ j, j < n → mask.testBit j = true := by
      intro j _
      cases hb : mask.testBit j with
      | false => exact absurd hb (hc j)
      | true => rfl
    have := all_set_ge mask n hall
    omega
  refine ⟨Nat.find hex, ?_, Nat.find_spec hex, ?_⟩
  · by_contra hge
    push_neg at hge
    have hall : ∀ j, j < n → mask.testBit j = true := by
      intro j hj
      have hnf := Nat.find_min hex (lt_of_lt_of_le hj hge)
      cases hb : mask.testBit j with
      | false => exact absurd hb hnf
      | true => rfl
    have := all_set_ge mask n hall
    omega
  · intro j hj
    have hnf := Nat.find_min hex hj
    cases hb : mask.testBit j with
    | false => exact absurd hb hnf
    | true => rfl

theorem lowestClearAux_eq_some (mask : Nat) :
    ∀ (fuel start i : Nat), start ≤ i → i < start + fuel →
      (∀ j, start ≤ j → j < i → mask.testBit j = true) → mask.testBit i = false →
      lowestClearAux mask start fuel = some i := by
  intro fuel
  induction fuel with
  | zero => intro start i h1 h2; omega
  | succ f ih =>
    intro start i h1 h2 hlow hbit
    rw [lowestClearAux]
    by_cases hs : mask.testBit start = false
    · rw [if_pos hs]
      by_cases hsi : start = i
      · rw [hsi]
      · have := hlow start (le_refl _) (by omega)
        rw [this] at hs
        exact absurd hs (by simp)
    · rw [if_neg hs]
      have hsi : start ≠ i := fun hc => hs (hc ▸ hbit)
      exact ih (start + 1) i (by omega) (by omega)
        (fun j hj1 hj2 => hlow j (by omega) hj2) hbit

theorem lowestClear_eq_some (mask n i : Nat) (hi : i < n) (hbit : mask.testBit i = false)
    (hlow : ∀ j, j < i → mask.testBit j = true) : lowestClear mask n = some i :=
  lowestClearAux_eq_some mask n 0 i (Nat.zero_le i) (by omega)
    (fun j _ hj => hlow j hj) hbit

theorem fb_locked_full (env : Env) (ctxType junk : BufferType) (st : SysState)
    (size0 : Nat) (usage : Usage) (fb : FbInfo)
    (hfb : st.m.framebuffer = some fb) (hn : st.m.numBuffers ≠ 1)
    (hge : st.m.bufferMask ≥ 2 ^ st.m.numBuffers - 1) :
    gralloc_alloc_framebuffer_locked env ctxType junk st size0 usage
      = ⟨-ENOMEM, none, st⟩ := by
  have hnn : ¬ (st.m.framebuffer = none) := by rw [hfb]; simp
  simp [gralloc_alloc_framebuffer_locked, hnn, hfb, hn, Nat.one_shiftLeft, hge]

theorem fb_locked_success (env : Env) (ctxType junk : BufferType) (st : SysState)
    (size0 : Nat) (usage : Usage) (fb : FbInfo) (i : Nat)
    (hfb : st.m.framebuffer = some fb) (hn : st.m.numBuffers ≠ 1)
    (hlt : ¬ (st.m.bufferMask ≥ 2 ^ st.m.numBuffers - 1))
    (hfound : lowestClear st.m.bufferMask st.m.numBuffers = some i) :
    gralloc_alloc_framebuffer_locked env ctxType junk st size0 usage =
      ⟨0,
       some { mkHandle ((st.nextFd : Nat) : Int) size0 ⟨true, true⟩ BufferType.FB env.pid with
              base := fb.base + (i : Int) * ((st.m.lineLength * st.m.yres : Nat) : Int)
              offset := fb.base + (i : Int) * ((st.m.lineLength * st.m.yres : Nat) : Int)
                - fb.base
              phys := fb.phys +
                (fb.base + (i : Int) * ((st.m.lineLength * st.m.yres : Nat) : Int) - fb.base) },
       { st with
         m := { st.m with bufferMask := st.m.bufferMask ||| (1 <<< i) }
         nextFd := st.nextFd + 1
         openFds := st.nextFd :: st.openFds }⟩ := by
  have hnn : ¬ (st.m.framebuffer = none) := by rw [hfb]; simp
  simp [gralloc_alloc_framebuffer_locked, hnn, hfb, hn, Nat.one_shiftLeft, hlt, hfound,
    openFd]

theorem free_slot_mask (st : SysState) (fb : FbInfo) (hh : private_handle_t) (i : Nat)
    (hfb : st.m.framebuffer = some fb)
    (hv : validateH hh = 0) (hffb : hh.flags.framebuffer = true)
    (hbase : hh.base = fb.base + (i : Nat) * ((st.m.lineLength * st.m.yres : Nat) : Int))
    (hB : 0 < st.m.lineLength * st.m.yres) :
    (gralloc_free st (some hh)).ret = 0 ∧
    (gralloc_free st (some hh)).st.m =
      { st.m with bufferMask := fbClearMask st.m.bufferMask i } := by
  have hnl : ¬ (validate (some hh) < 0) := by
    simp only [validate]; omega
  have hBz : ((st.m.lineLength * st.m.yres : Nat) : Int) ≠ 0 := by
    have := hB
    omega
  unfold gralloc_free
  rw [if_neg hnl]
  refine ⟨rfl, ?_⟩
  simp only [hffb, if_pos, hfb]
  rw [hbase]
  have hdiv : (fb.base + (i : Nat) * ((st.m.lineLength * st.m.yres : Nat) : Int) - fb.base)
      = (i : Nat) * ((st.m.lineLength * st.m.yres : Nat) : Int) := by ring
  rw [hdiv, Int.mul_tdiv_cancel _ hBz]
  simp [closeFd]
  split <;> rfl

/-- C7: the framebuffer slot allocator with more than one buffer: full
bitmask means OutOfSlots (-ENOMEM, no change); otherwise the lowest
unset bit i is set and the handle base is surface base + i * buffer
size; freeing a scanout handle clears exactly its slot bit, after which
exactly one more scanout allocation succeeds. -/
theorem C7_scanout_slots (env : Env) (ctxType junk : BufferType) (st : SysState)
    (fb : FbInfo) (size0 : Nat) (usage : Usage)
    (hfb : st.m.framebuffer = some fb)
    (hn1 : 1 < st.m.numBuffers) (hn32 : st.m.numBuffers < 32)
    (hmask : st.m.bufferMask < 2 ^ st.m.numBuffers)
    (hB : 0 < st.m.lineLength * st.m.yres) :
    ScanoutSlotSpec env ctxType junk st fb size0 usage := by
  have hm32 : st.m.bufferMask < 2 ^ 32 :=
    lt_of_lt_of_le hmask (Nat.pow_le_pow_right (by omega) (by omega))
  refine ⟨?_, ?_, ?_⟩
  · -- part 1: full mask fails with -ENOMEM and no state change
    intro hfull
    exact fb_locked_full env ctxType junk st size0 usage fb hfb (by omega) (by omega)
  · -- part 2: lowest clear slot is claimed; freeing it restores the mask
    intro hne
    have hpow : 0 < 2 ^ st.m.numBuffers := pow_pos (by omega) _
    have hlt2 : st.m.bufferMask < 2 ^ st.m.numBuffers - 1 := by omega
    obtain ⟨i, hin, hbit, hlow⟩ := exists_lowest_clear _ _ hlt2
    have hfound := lowestClear_eq_some _ _ _ hin hbit hlow
    have halloc := fb_locked_success env ctxType junk st size0 usage fb i hfb
      (by omega) (by omega) hfound
    refine ⟨i, hfound, hin, hbit, hlow, ?_, ?_⟩
    · rw [halloc]
    · rw [halloc]
      refine ⟨_, rfl, rfl, rfl, ?_⟩
      have hfree := free_slot_mask
        { st with
          m := { st.m with bufferMask := st.m.bufferMask ||| (1 <<< i) }
          nextFd := st.nextFd + 1
          openFds := st.nextFd :: st.openFds }
        fb
        { mkHandle ((st.nextFd : Nat) : Int) size0 ⟨true, true⟩ BufferType.FB env.pid with
          base := fb.base + (i : Int) * ((st.m.lineLength * st.m.yres : Nat) : Int)
          offset := fb.base + (i : Int) * ((st.m.lineLength * st.m.yres : Nat) : Int)
            - fb.base
          phys := fb.phys +
            (fb.base + (i : Int) * ((st.m.lineLength * st.m.yres : Nat) : Int) - fb.base) }
        i hfb (validateH_eq_zero_of _ rfl rfl rfl rfl) rfl rfl hB
      rw [hfree.2]
      exact clear_set_roundtrip st.m.bufferMask i hm32 (by omega) hbit
  · -- part 3: free one slot from a full mask, then exactly one more succeeds
    intro hfull i0 hi0 hh0 hv hffb hbase
    have hfree := free_slot_mask st fb hh0 i0 hfb hv hffb hbase hB
    have hm2 : (gralloc_free st (some hh0)).st.m =
        { st.m with bufferMask := fbClearMask st.m.bufferMask i0 } := hfree.2
    have hfb2 : (gralloc_free st (some hh0)).st.m.framebuffer = some fb := by
      rw [hm2]; exact hfb
    have hn2 : (gralloc_free st (some hh0)).st.m.numBuffers = st.m.numBuffers := by
      rw [hm2]
    have hl2 : (gralloc_free st (some hh0)).st.m.lineLength = st.m.lineLength := by
      rw [hm2]
    have hy2 : (gralloc_free st (some hh0)).st.m.yres = st.m.yres := by
      rw [hm2]
    have hmask2 : (gralloc_free st (some hh0)).st.m.bufferMask =
        fbClearMask (2 ^ st.m.numBuffers - 1) i0 := by
      rw [hm2, hfull]
    have hb2 : (fbClearMask (2 ^ st.m.numBuffers - 1) i0).testBit i0 = false := by
      rw [fbClearMask_testBit _ _ (by omega)]
      simp
    have hlow2 : ∀ j, j < i0 →
        (fbClearMask (2 ^ st.m.numBuffers - 1) i0).testBit j = true := by
      intro j hj
      rw [fbClearMask_testBit _ _ (by omega), Nat.testBit_two_pow_sub_one]
      simp only [Bool.and_eq_true, decide_eq_true_eq, Bool.not_eq_true', decide_eq_false_iff_not]
      omega
    have hle2 : fbClearMask (2 ^ st.m.numBuffers - 1) i0 ≤ 2 ^ st.m.numBuffers - 1 := by
      unfold fbClearMask
      exact Nat.and_le_left
    have hne2 : fbClearMask (2 ^ st.m.numBuffers - 1) i0 ≠ 2 ^ st.m.numBuffers - 1 := by
      intro hc
      rw [hc, Nat.testBit_two_pow_sub_one] at hb2
      simp at hb2
      omega
    have hfound2 := lowestClear_eq_some (fbClearMask (2 ^ st.m.numBuffers - 1) i0)
      st.m.numBuffers i0 hi0 hb2 hlow2
    have hm3 : fbClearMask (2 ^ st.m.numBuffers - 1) i0 ||| (1 <<< i0)
        = 2 ^ st.m.numBuffers - 1 := set_clear_full st.m.numBuffers i0 (by omega) hi0
    have halloc2 := fb_locked_success env ctxType junk (gralloc_free st (some hh0)).st
      size0 usage fb i0 hfb2 (by rw [hn2]; omega)
      (by rw [hmask2, hn2]; omega)
      (by rw [hmask2, hn2]; exact hfound2)
    refine ⟨?_, ?_, ?_, ?_, ?_, ?_⟩
    · rw [hmask2]
      exact hb2
    · intro j hj
      rw [hmask2, hfull, fbClearMask_testBit _ _ (by omega), Nat.testBit_two_pow_sub_one]
      by_cases hjn : j < st.m.numBuffers
      · simp [hjn, hj]
        omega
      · simp [hjn]
    · rw [halloc2]
    · rw [halloc2]
      rfl
    · rw [halloc2]
      show (gralloc_free st (some hh0)).st.m.bufferMask ||| (1 <<< i0)
        = 2 ^ st.m.numBuffers - 1
      rw [hmask2]
      exact hm3
    · rw [halloc2]
      apply fb_locked_full
      · show (gralloc_free st (some hh0)).st.m.framebuffer = some fb
        exact hfb2
      · show ¬ (gralloc_free st (some hh0)).st.m.numBuffers = 1
        rw [hn2]; omega
      · show (gralloc_free st (some hh0)).st.m.bufferMask ||| (1 <<< i0)
            ≥ 2 ^ (gralloc_free st (some hh0)).st.m.numBuffers - 1
        rw [hmask2, hn2, hm3]

theorem C7_scanout_slots_witness :
    stFbFull.m.framebuffer = some ⟨100000, 900000⟩ ∧
    1 < stFbFull.m.numBuffers ∧
    stFbFull.m.numBuffers < 32 ∧
    stFbFull.m.bufferMask < 2 ^ stFbFull.m.numBuffers ∧
    0 < stFbFull.m.lineLength * stFbFull.m.yres ∧
    ScanoutSlotSpec envAllOk BufferType.GPU1 BufferType.PMEM stFbFull
      ⟨100000, 900000⟩ 1024000 usageFb :=
  ⟨by decide, by decide, by decide, by decide, by decide,
   C7_scanout_slots envAllOk BufferType.GPU1 BufferType.PMEM stFbFull
     ⟨100000, 900000⟩ 1024000 usageFb (by decide) (by decide) (by decide) (by decide)
     (by decide)⟩

/-! ### Claim C1 (amended) and Claim C10 -/

/-- When the master pool device cannot be opened at all, only the
GRALLOC_USAGE_HW_2D flag makes the failure strict: with HW_2D set the
device error is surfaced untouched; without it the request is retried
once as plain anonymous shared memory. -/
theorem pmemPath_pool_unavailable (env : Env) (st : SysState) (size : Nat)
    (bt : BufferType) (usage : Usage)
    (hmaster : masterOf st bt = -1)
    (hdev : secDevOk env bt = false)
    (herrno : 0 < env.errno) :
    (usage.hw2d = true →
      pmemPath env st size bt usage = ⟨-((env.errno : Nat) : Int), none, st⟩) ∧
    (usage.hw2d = false → env.ashmemOk = true →
      (pmemPath env st size bt usage).ret = 0 ∧
      ((pmemPath env st size bt usage).handle.map fun hh => hh.flags.usesPmem)
        = some false ∧
      ((pmemPath env st size bt usage).handle).isSome = true) := by
  have herrne : ¬ (-((env.errno : Nat) : Int) = 0) := by omega
  constructor
  · intro h2d
    simp [pmemPath, hmaster, init_pmem_area, hdev, h2d, finishAlloc, herrne]
  · intro h2d hash
    simp [pmemPath, hmaster, init_pmem_area, hdev, h2d, tryAshmemPath, ashmemOpen,
      hash, openFd, finishAlloc, mkHandle]

/-- C1 amended: strictness is signalled by GRALLOC_USAGE_HW_2D, not by
the hardware-render-target flag.  A pool-targeting request (HW_2D or
HW_RENDER) on a device whose gpu pool cannot be opened fails with the
device error and releases nothing when HW_2D is set, and falls back to
anonymous shared memory (pmem flag cleared) when HW_2D is clear. -/
theorem C1_amended_hw2d_is_strict (env : Env) (junk : BufferType) (st : SysState)
    (size0 : Nat) (usage : Usage)
    (husage : usage.hw2d = true ∨ usage.hwRender = true)
    (hmaster : st.m.gpu_master = -1)
    (hdev : env.gpu1DevOk = false)
    (herrno : 0 < env.errno)
    (hash : env.ashmemOk = true) :
    (usage.hw2d = true →
      gralloc_alloc_buffer env BufferType.GPU1 junk st size0 usage
        = ⟨-((env.errno : Nat) : Int), none, st⟩) ∧
    (usage.hw2d = false →
      (gralloc_alloc_buffer env BufferType.GPU1 junk st size0 usage).ret = 0 ∧
      ((gralloc_alloc_buffer env BufferType.GPU1 junk st size0 usage).handle.map
          fun hh => hh.flags.usesPmem) = some false ∧
      ((gralloc_alloc_buffer env BufferType.GPU1 junk st size0 usage).handle).isSome
        = true) := by
  have hu : (usage.hw2d || usage.hwRender) = true := by
    rcases husage with h | h <;> simp [h]
  have heq : gralloc_alloc_buffer env BufferType.GPU1 junk st size0 usage =
      pmemPath env st (roundUpToPageSize size0) BufferType.GPU1 usage := by
    simp [gralloc_alloc_buffer, hu]
  have key := pmemPath_pool_unavailable env st (roundUpToPageSize size0)
    BufferType.GPU1 usage (by simpa [masterOf] using hmaster)
    (by simpa [secDevOk] using hdev) herrno
  constructor
  · intro h2d
    rw [heq]
    exact key.1 h2d
  · intro h2d
    rw [heq]
    exact key.2 h2d hash

theorem C1_amended_hw2d_is_strict_witness :
    (usage2d.hw2d = true ∨ usage2d.hwRender = true) ∧
    initialState.m.gpu_master = -1 ∧
    envPoolDown.gpu1DevOk = false ∧
    0 < envPoolDown.errno ∧
    envPoolDown.ashmemOk = true ∧
    ((usage2d.hw2d = true →
      gralloc_alloc_buffer envPoolDown BufferType.GPU1 BufferType.PMEM initialState
        4096 usage2d = ⟨-((envPoolDown.errno : Nat) : Int), none, initialState⟩) ∧
     (usage2d.hw2d = false →
      (gralloc_alloc_buffer envPoolDown BufferType.GPU1 BufferType.PMEM initialState
        4096 usage2d).ret = 0 ∧
      ((gralloc_alloc_buffer envPoolDown BufferType.GPU1 BufferType.PMEM initialState
        4096 usage2d).handle.map fun hh => hh.flags.usesPmem) = some false ∧
      ((gralloc_alloc_buffer envPoolDown BufferType.GPU1 BufferType.PMEM initialState
        4096 usage2d).handle).isSome = true)) :=
  ⟨by decide, by decide, by decide, by decide, by decide,
   C1_amended_hw2d_is_strict envPoolDown BufferType.PMEM initialState 4096 usage2d
     (by decide) (by decide) (by decide) (by decide) (by decide)⟩

theorem finishAlloc_handle_valid (err fd : Int) (size : Nat) (flags : Flags)
    (bt : BufferType) (offset base : Int) (lockState : Nat) (pid : Nat)
    (st : SysState) (hh : private_handle_t)
    (h : (finishAlloc err fd size flags bt offset base lockState pid st).handle
      = some hh) : validateH hh = 0 := by
  unfold finishAlloc at h
  split at h
  · injection h with heq
    exact heq ▸ validateH_eq_zero_of _ rfl rfl rfl rfl
  · injection h

theorem tryAshmemPath_handle_valid (env : Env) (st : SysState) (size : Nat)
    (flags : Flags) (bt : BufferType) (hh : private_handle_t)
    (h : (tryAshmemPath env st size flags bt).handle = some hh) : validateH hh = 0 := by
  unfold tryAshmemPath at h
  exact finishAlloc_handle_valid _ _ _ _ _ _ _ _ _ _ _ h

theorem pmemSecondary_handle_valid (env : Env) (st : SysState) (size : Nat)
    (bt : BufferType) (base offset : Int) (hh : private_handle_t)
    (h : (pmemSecondary env st size bt base offset).handle = some hh) :
    validateH hh = 0 := by
  simp only [pmemSecondary] at h
  repeat' split at h
  all_goals exact finishAlloc_handle_valid _ _ _ _ _ _ _ _ _ _ _ h

theorem pmemWithMaster_handle_valid (env : Env) (st : SysState) (size : Nat)
    (bt : BufferType) (hh : private_handle_t)
    (h : (pmemWithMaster env st size bt).handle = some hh) : validateH hh = 0 := by
  simp only [pmemWithMaster] at h
  repeat' split at h
  all_goals first
    | exact finishAlloc_handle_valid _ _ _ _ _ _ _ _ _ _ _ h
    | exact pmemSecondary_handle_valid _ _ _ _ _ _ _ h

theorem pmemPath_handle_valid (env : Env) (st : SysState) (size : Nat)
    (bt : BufferType) (usage : Usage) (hh : private_handle_t)
    (h : (pmemPath env st size bt usage).handle = some hh) : validateH hh = 0 := by
  simp only [pmemPath] at h
  repeat' split at h
  all_goals first
    | exact finishAlloc_handle_valid _ _ _ _ _ _ _ _ _ _ _ h
    | exact tryAshmemPath_handle_valid _ _ _ _ _ _ h
    | exact pmemWithMaster_handle_valid _ _ _ _ _ h

theorem gralloc_alloc_buffer_handle_valid (env : Env) (ctxType junk : BufferType)
    (st : SysState) (size0 : Nat) (usage : Usage) (hh : private_handle_t)
    (h : (gralloc_alloc_buffer env ctxType junk st size0 usage).handle = some hh) :
    validateH hh = 0 := by
  simp only [gralloc_alloc_buffer] at h
  repeat' split at h
  all_goals first
    | exact pmemPath_handle_valid _ _ _ _ _ _ h
    | exact tryAshmemPath_handle_valid _ _ _ _ _ _ h

theorem fb_locked_handle_valid (env : Env) (ctxType junk : BufferType)
    (st : SysState) (size0 : Nat) (usage : Usage) (hh : private_handle_t)
    (h : (gralloc_alloc_framebuffer_locked env ctxType junk st size0 usage).handle
      = some hh) : validateH hh = 0 := by
  simp only [gralloc_alloc_framebuffer_locked] at h
  repeat' split at h
  all_goals first
    | exact gralloc_alloc_buffer_handle_valid _ _ _ _ _ _ _ h
    | (injection h with heq
       exact heq ▸ validateH_eq_zero_of _ rfl rfl rfl rfl)
    | injection h

/-- C10: every handle returned by a successful gralloc_alloc, on every
backing path (anonymous shared memory, physical pool, framebuffer slot),
passes validate at the moment it is returned. -/
theorem C10_returned_handles_validate (env : Env) (ctxType junk : BufferType)
    (st : SysState) (w h : Int) (format : Int) (usage : Usage)
    (hh : private_handle_t)
    (hsome : (gralloc_alloc env ctxType junk st w h format usage).handle = some hh) :
    validate (some hh) = 0 := by
  show validateH hh = 0
  simp only [gralloc_alloc] at hsome
  repeat' split at hsome
  all_goals first
    | exact gralloc_alloc_buffer_handle_valid _ _ _ _ _ _ _ hsome
    | (simp only [gralloc_alloc_framebuffer] at hsome
       exact fb_locked_handle_valid _ _ _ _ _ _ _ hsome)
    | injection hsome

theorem C10_returned_handles_validate_witness :
    (gralloc_alloc envAllOk BufferType.GPU1 BufferType.PMEM initialState 32 32
      HAL_PIXEL_FORMAT_RGBA_8888 usageNone).handle = some hC10 ∧
    validate (some hC10) = 0 :=
  ⟨by decide,
   C10_returned_handles_validate envAllOk BufferType.GPU1 BufferType.PMEM initialState
     32 32 HAL_PIXEL_FORMAT_RGBA_8888 usageNone hC10 (by decide)⟩

end Gralloc
